import Mathlib

/-!
Verification of the Invera backend request-handling contract (src/server.py)
against its natural-language specification. The Python module is shallowly
embedded: pure computations become Lean functions, the document store becomes
an explicit state value threaded through the handlers, and the outcomes of the
two external adapters (the Mongo driver and the Resend email client) are passed
in as explicit parameters, since the adapters themselves live outside the
repository.
-/

namespace Invera

/-! ## Datetimes

`datetime.now(timezone.utc)` values are modelled by their broken-down fields;
the timezone is always UTC, as in the source, so it is left implicit.
`isoformat` and `fromisoformat` below model the Python standard-library
functions `datetime.isoformat` and `datetime.fromisoformat` on the profile the
server actually exercises: timezone-aware UTC datetimes whose serialized form
is `YYYY-MM-DDTHH:MM:SS[.ffffff]+00:00`. The parser checks field ranges as
CPython does, except that the day-of-month upper bound is coarsened to 31
(CPython validates per month and leap year; no claim depends on that). -/

structure DateTime where
  year : Nat
  month : Nat
  day : Nat
  hour : Nat
  minute : Nat
  second : Nat
  microsecond : Nat
deriving DecidableEq, Repr

def DateTime.valid (t : DateTime) : Prop :=
  1 ≤ t.year ∧ t.year ≤ 9999 ∧ 1 ≤ t.month ∧ t.month ≤ 12 ∧ 1 ≤ t.day ∧ t.day ≤ 31 ∧
    t.hour ≤ 23 ∧ t.minute ≤ 59 ∧ t.second ≤ 59 ∧ t.microsecond ≤ 999999

instance (t : DateTime) : Decidable t.valid := by
  unfold DateTime.valid
  infer_instance

/-- The character for a decimal digit `n < 10`. -/
def digitChar (n : Nat) : Char := Char.ofNat (48 + n)

/-- `n` rendered in exactly `k` decimal digits, zero padded (Python `%0kd`). -/
def padDigits : Nat → Nat → List Char
  | 0, _ => []
  | k + 1, n => digitChar (n / 10 ^ k % 10) :: padDigits k n

/-- Consume exactly `k` decimal digits from the front of a character list,
accumulating their value onto `acc`; fail on a non-digit or early end. -/
def takeDigits : Nat → Nat → List Char → Option (Nat × List Char)
  | 0, acc, l => some (acc, l)
  | _ + 1, _, [] => none
  | k + 1, acc, c :: l =>
      if c.isDigit then takeDigits k (acc * 10 + (c.toNat - 48)) l else none

theorem digitChar_spec : ∀ d, d < 10 →
    (digitChar d).isDigit = true ∧ (digitChar d).toNat - 48 = d := by decide

theorem takeDigits_padDigits (k : Nat) : ∀ (acc n : Nat) (rest : List Char),
    takeDigits k acc (padDigits k n ++ rest) = some (acc * 10 ^ k + n % 10 ^ k, rest) := by
  induction k with
  | zero =>
      intro acc n rest
      simp [takeDigits, padDigits, Nat.mod_one]
  | succ k ih =>
      intro acc n rest
      have hd : n / 10 ^ k % 10 < 10 := Nat.mod_lt _ (by decide)
      obtain ⟨hdig, hval⟩ := digitChar_spec _ hd
      have hsplit : n % 10 ^ (k + 1) = n % 10 ^ k + 10 ^ k * (n / 10 ^ k % 10) := by
        rw [pow_succ, Nat.mod_mul]
      have harith : (acc * 10 + n / 10 ^ k % 10) * 10 ^ k + n % 10 ^ k
          = acc * 10 ^ (k + 1) + n % 10 ^ (k + 1) := by
        rw [hsplit, pow_succ]
        ring
      simp only [padDigits, List.cons_append, takeDigits, hdig, if_true, hval, List.append_eq]
      rw [ih, harith]

theorem takeDigits_pad_lt (k n : Nat) (h : n < 10 ^ k) (rest : List Char) :
    takeDigits k 0 (padDigits k n ++ rest) = some (n, rest) := by
  rw [takeDigits_padDigits, Nat.mod_eq_of_lt h, Nat.zero_mul, Nat.zero_add]

/-- Require character `c` at the head of the input. -/
def expectChar (c : Char) : List Char → Option (List Char)
  | d :: l => if d = c then some l else none
  | [] => none

/-- Parse the `YYYY-MM-DD` block. -/
def parseDatePart (l : List Char) : Option ((Nat × Nat × Nat) × List Char) := do
  let (y, l) ← takeDigits 4 0 l
  let l ← expectChar '-' l
  let (mo, l) ← takeDigits 2 0 l
  let l ← expectChar '-' l
  let (d, l) ← takeDigits 2 0 l
  some ((y, mo, d), l)

/-- Parse the `HH:MM:SS` block. -/
def parseTimePart (l : List Char) : Option ((Nat × Nat × Nat) × List Char) := do
  let (h, l) ← takeDigits 2 0 l
  let l ← expectChar ':' l
  let (mi, l) ← takeDigits 2 0 l
  let l ← expectChar ':' l
  let (s, l) ← takeDigits 2 0 l
  some ((h, mi, s), l)

/-- Parse the optional `.ffffff` block; absent fraction means zero. -/
def parseFracPart (l : List Char) : Option (Nat × List Char) :=
  if l.head? = some '.' then takeDigits 6 0 l.tail else some (0, l)

/-- The serialized UTC offset `+00:00`. -/
def utcOffsetChars : List Char := ['+', '0', '0', ':', '0', '0']

/-- Parser for the ISO-8601 profile `YYYY-MM-DDTHH:MM:SS[.ffffff]+00:00`,
modelling `datetime.fromisoformat` on the strings this server stores. -/
def parseISO (l : List Char) : Option DateTime := do
  let ((y, mo, d), l) ← parseDatePart l
  let l ← expectChar 'T' l
  let ((h, mi, s), l) ← parseTimePart l
  let (us, l) ← parseFracPart l
  if l = utcOffsetChars then
    let t : DateTime := ⟨y, mo, d, h, mi, s, us⟩
    if t.valid then some t else none
  else none

theorem parseDatePart_pad (y mo d : Nat)
    (hy : y < 10 ^ 4) (hmo : mo < 10 ^ 2) (hd : d < 10 ^ 2) (rest : List Char) :
    parseDatePart (padDigits 4 y ++ ('-' :: (padDigits 2 mo ++ ('-' :: (padDigits 2 d ++ rest)))))
      = some ((y, mo, d), rest) := by
  simp [parseDatePart, takeDigits_pad_lt 4 y hy, expectChar,
    takeDigits_pad_lt 2 mo hmo, takeDigits_pad_lt 2 d hd]

theorem parseTimePart_pad (h mi s : Nat)
    (hh : h < 10 ^ 2) (hmi : mi < 10 ^ 2) (hs : s < 10 ^ 2) (rest : List Char) :
    parseTimePart (padDigits 2 h ++ (':' :: (padDigits 2 mi ++ (':' :: (padDigits 2 s ++ rest)))))
      = some ((h, mi, s), rest) := by
  simp [parseTimePart, takeDigits_pad_lt 2 h hh, expectChar,
    takeDigits_pad_lt 2 mi hmi, takeDigits_pad_lt 2 s hs]

theorem parseFracPart_pad (us : Nat) (hus : us < 10 ^ 6) :
    parseFracPart ((if us = 0 then [] else '.' :: padDigits 6 us) ++ utcOffsetChars)
      = some (us, utcOffsetChars) := by
  by_cases h0 : us = 0
  · simp [h0, parseFracPart, utcOffsetChars]
  · simp [h0, parseFracPart, takeDigits_pad_lt 6 us hus]

/-- The serialized form of a datetime, as `datetime.isoformat` produces it for
an aware UTC value: the `.ffffff` block is omitted when the microsecond field
is zero, and the offset renders as `+00:00`. -/
def isoformatChars (t : DateTime) : List Char :=
  padDigits 4 t.year ++ ('-' :: (padDigits 2 t.month ++ ('-' :: (padDigits 2 t.day ++ ('T' :: (padDigits 2 t.hour ++ (':' :: (padDigits 2 t.minute ++ (':' :: (padDigits 2 t.second ++ ((if t.microsecond = 0 then [] else '.' :: padDigits 6 t.microsecond) ++ utcOffsetChars)))))))))))

def isoformat (t : DateTime) : String := String.mk (isoformatChars t)

def fromisoformat (s : String) : Option DateTime := parseISO s.data

/-- Serialization round trip: parsing the ISO form of a valid datetime gives
back exactly the original value (microsecond precision is preserved). -/
theorem fromisoformat_isoformat (t : DateTime) (h : t.valid) :
    fromisoformat (isoformat t) = some t := by
  obtain ⟨h1, h2, h3, h4, h5, h6, h7, h8, h9, h10⟩ := h
  have hv : DateTime.valid ⟨t.year, t.month, t.day, t.hour, t.minute, t.second, t.microsecond⟩ :=
    ⟨h1, h2, h3, h4, h5, h6, h7, h8, h9, h10⟩
  show parseISO (isoformatChars t) = some t
  simp only [isoformatChars, parseISO,
    parseDatePart_pad t.year t.month t.day (by omega) (by omega) (by omega),
    parseTimePart_pad t.hour t.minute t.second (by omega) (by omega) (by omega),
    parseFracPart_pad t.microsecond (by omega),
    expectChar, Option.bind_eq_bind, Option.some_bind, ite_true, eq_self_iff_true]
  rw [if_pos hv]

/-! ## Configuration (src/server.py lines 19 to 30)

`os.environ['K']` raises `KeyError` when `K` is absent, aborting the module
load and so the process start; `os.environ.get('K')` returns `None` instead,
and `os.environ.get('K', d)` returns the default `d`. -/

structure Config where
  mongo_url : String
  db_name : String
  resend_api_key : Option String
  sender_email : String
  recipient_email : Option String
  cors_origins : List String
deriving DecidableEq, Repr

/-- Python `str.split(",")` specialised to the comma separator, used on the
`CORS_ORIGINS` value. -/
def splitCommaAux : List Char → List Char → List String
  | [], acc => [String.mk acc.reverse]
  | c :: rest, acc =>
      if c = ',' then String.mk acc.reverse :: splitCommaAux rest []
      else splitCommaAux rest (c :: acc)

def splitComma (s : String) : List String := splitCommaAux s.data []

/-- Module-level configuration loading: the process starts only when this
returns `ok`. -/
def loadConfig (env : String → Option String) : Except String Config :=
  match env "MONGO_URL" with
  | none => .error "KeyError: MONGO_URL"
  | some mongo_url =>
      match env "DB_NAME" with
      | none => .error "KeyError: DB_NAME"
      | some db_name =>
          .ok { mongo_url := mongo_url
                db_name := db_name
                resend_api_key := env "RESEND_API_KEY"
                sender_email := (env "SENDER_EMAIL").getD "onboarding@resend.dev"
                recipient_email := env "RECIPIENT_EMAIL"
                cors_origins := splitComma ((env "CORS_ORIGINS").getD "*") }

/-- Python `str()` applied to an `Optional[str]`, as an f-string does: `None`
renders as the four letters `None`. -/
def pyStrOpt : Option String → String
  | none => "None"
  | some s => s

/-! ## Data model (src/server.py lines 39 to 55) -/

/-- The `StatusCheck` pydantic model; `id` and `timestamp` carry
`default_factory` generators, modelled by passing the generated values in
explicitly at the call sites. -/
structure StatusCheck where
  id : String
  client_name : String
  timestamp : DateTime
deriving DecidableEq, Repr

/-- Input-only model for POST /status: a single plain string field. -/
structure StatusCheckCreate where
  client_name : String
deriving DecidableEq, Repr

/-- Validated contact-form input. `company` has default value the empty
string. -/
structure ContactFormRequest where
  name : String
  email : String
  company : String
  message : String
deriving DecidableEq, Repr

/-- A status-check document as stored: the `timestamp` field is replaced by
its ISO-8601 string before `insert_one` (src/server.py line 69). -/
structure StatusCheckDoc where
  id : String
  client_name : String
  timestamp : String
deriving DecidableEq, Repr

/-- A contact-submission document as stored (src/server.py lines 190 to 198). -/
structure ContactSubmission where
  id : String
  name : String
  email : String
  company : String
  message : String
  timestamp : String
  email_id : Option String
deriving DecidableEq, Repr

/-- The two logical collections of the document store. -/
structure DB where
  status_checks : List StatusCheckDoc
  contact_submissions : List ContactSubmission
deriving DecidableEq, Repr

/-! ## Status Check Service (src/server.py lines 62 to 84) -/

/-- POST /api/status handler. `genId` and `now` stand for the values drawn by
the `uuid.uuid4()` and `datetime.now(timezone.utc)` default factories. Returns
the response object and the updated store. -/
def create_status_check (input : StatusCheckCreate) (genId : String) (now : DateTime)
    (db : DB) : StatusCheck × DB :=
  let status_obj : StatusCheck := { id := genId, client_name := input.client_name, timestamp := now }
  let doc : StatusCheckDoc :=
    { id := status_obj.id, client_name := status_obj.client_name,
      timestamp := isoformat status_obj.timestamp }
  (status_obj, { db with status_checks := db.status_checks ++ [doc] })

/-- The in-place loop of GET /api/status: convert each stored ISO string
timestamp back to a datetime; a string `fromisoformat` rejects raises, which
the handler does not catch, so the whole read fails (`none`). -/
def parseChecks : List StatusCheckDoc → Option (List StatusCheck)
  | [] => some []
  | d :: rest =>
      match fromisoformat d.timestamp with
      | none => none
      | some ts => (parseChecks rest).map fun l => ⟨d.id, d.client_name, ts⟩ :: l

/-- GET /api/status handler: `find({}, \x7b"_id": 0\x7d).to_list(1000)` reads at
most the first 1000 documents in collection order, then timestamps are
converted back. -/
def get_status_checks (db : DB) : Option (List StatusCheck) :=
  parseChecks (db.status_checks.take 1000)

theorem parseChecks_length : ∀ (l : List StatusCheckDoc) (r : List StatusCheck),
    parseChecks l = some r → r.length = l.length := by
  intro l
  induction l with
  | nil =>
      intro r h
      simp only [parseChecks, Option.some.injEq] at h
      rw [← h]
      rfl
  | cons d rest ih =>
      intro r h
      unfold parseChecks at h
      cases hf : fromisoformat d.timestamp with
      | none => rw [hf] at h; exact absurd h (by simp)
      | some ts =>
          rw [hf] at h
          cases hr : parseChecks rest with
          | none => rw [hr] at h; exact absurd h (by simp)
          | some r0 =>
              rw [hr] at h
              simp only [Option.map_some', Option.some.injEq] at h
              rw [← h]
              simp [ih r0 hr]

theorem parseChecks_append : ∀ (a : List StatusCheckDoc) (ra : List StatusCheck)
    (b : List StatusCheckDoc) (rb : List StatusCheck),
    parseChecks a = some ra → parseChecks b = some rb →
    parseChecks (a ++ b) = some (ra ++ rb) := by
  intro a
  induction a with
  | nil =>
      intro ra b rb ha hb
      simp only [parseChecks, Option.some.injEq] at ha
      rw [← ha]
      simpa using hb
  | cons d rest ih =>
      intro ra b rb ha hb
      unfold parseChecks at ha
      cases hf : fromisoformat d.timestamp with
      | none => rw [hf] at ha; exact absurd ha (by simp)
      | some ts =>
          rw [hf] at ha
          cases hr : parseChecks rest with
          | none => rw [hr] at ha; exact absurd ha (by simp)
          | some r0 =>
              rw [hr] at ha
              simp only [Option.map_some', Option.some.injEq] at ha
              have hrec := ih r0 b rb hr hb
              rw [List.cons_append]
              unfold parseChecks
              rw [hf, hrec]
              simp [← ha]

/-! ## Contact Form Service: email rendering (src/server.py lines 93 to 174)

The f-string template is a concatenation of literal chunks and interpolated
values. The literal chunks below are transcribed verbatim from the source;
literal braces (written `{{`/`}}` in the f-string) appear as `\x7b`/`\x7d`
escapes. -/

def htmlA1 : String :=
  "\n        <!DOCTYPE html>\n        <html>\n        <head>\n            <meta charset=\"utf-8\">\n            <style>\n                body \x7b\n                    font-family: Arial, sans-serif;\n                    line-height: 1.6;\n                    color: #333;\n                \x7d\n                .container \x7b\n                    max-width: 600px;\n                    margin: 0 auto;\n                    padding: 20px;\n                \x7d\n                .header \x7b\n                    background: linear-gradient(135deg, #8b5cf6 0%, #3b82f6 100%);\n                    color: white;\n                    padding: 30px;\n                    text-align: center;\n                    border-radius: 8px 8px 0 0;\n                \x7d\n                .content \x7b\n                    background: #f9fafb;\n                    padding: 30px;\n                    border-radius: 0 0 8px 8px;\n                \x7d\n                .field \x7b\n                    margin-bottom: 20px;\n                \x7d\n                .field-label \x7b\n                    font-weight: bold;\n                    color: #8b5cf6;\n                    margin-bottom: 5px;\n                \x7d\n                .field-value \x7b\n                    background: white;\n                    padding: 12px;\n                    border-left: 3px solid #8b5cf6;\n                    border-radius: 4px;\n                \x7d\n                .footer \x7b\n                    text-align: center;\n                    margin-top: 20px;\n                    color: #6b7280;\n                    font-size: 14px;\n                \x7d\n            </style>\n        </head>\n        <body>\n            <div class=\"container\">\n                <div class=\"header\">\n                    <h1 style=\"margin: 0;\">New Contact Form Submission</h1>\n                    <p style=\"margin: 10px 0 0 0;\">INVERA Website</p>\n                </div>\n                <div class=\"content\">\n                    <div class=\"field\">\n                        <div class=\"field-label\">Name:</div>\n                        <div class=\"field-value\">"

def htmlA2 : String :=
  "</div>\n                    </div>\n                    <div class=\"field\">\n                        <div class=\"field-label\">Email:</div>\n                        <div class=\"field-value\">"

def htmlA3 : String :=
  "</div>\n                    </div>\n                    "

def companyBlockPre : String :=
  "<div class=\"field\">\n                        <div class=\"field-label\">Company:</div>\n                        <div class=\"field-value\">"

def companyBlockPost : String :=
  "</div>\n                    </div>"

def htmlB1 : String :=
  "\n                    <div class=\"field\">\n                        <div class=\"field-label\">Message:</div>\n                        <div class=\"field-value\">"

def htmlB2 : String :=
  "</div>\n                    </div>\n                </div>\n                <div class=\"footer\">\n                    <p>This email was sent from the INVERA contact form.</p>\n                    <p>Received at: "

def htmlB3 : String :=
  "</p>\n                </div>\n            </div>\n        </body>\n        </html>\n        "

/-- The footer timestamp, `strftime(\x27%Y-%m-%d %H:%M:%S UTC\x27)` applied to
the render-time `datetime.now(timezone.utc)`. -/
def strftimeReceived (t : DateTime) : String :=
  String.mk (padDigits 4 t.year ++ ('-' :: (padDigits 2 t.month ++ ('-' :: (padDigits 2 t.day ++ (' ' :: (padDigits 2 t.hour ++ (':' :: (padDigits 2 t.minute ++ (':' :: (padDigits 2 t.second ++ [' ', 'U', 'T', 'C'])))))))))))

/-- Template text before the conditional company block, with the name and
email fields interpolated. -/
def renderBefore (request : ContactFormRequest) : String :=
  htmlA1 ++ request.name ++ htmlA2 ++ request.email ++ htmlA3

/-- The company field block, interpolating `request.company`. -/
def companyBlock (company : String) : String :=
  companyBlockPre ++ company ++ companyBlockPost

/-- Template text after the conditional company block, with the message field
and the received-at footer timestamp interpolated. -/
def renderAfter (request : ContactFormRequest) (now : DateTime) : String :=
  htmlB1 ++ request.message ++ htmlB2 ++ strftimeReceived now ++ htmlB3

/-- The full rendered `html_content`: the company block is emitted exactly
when `request.company` is truthy, that is, non-empty
(src/server.py lines 158 to 161). -/
def renderHtml (request : ContactFormRequest) (now : DateTime) : String :=
  renderBefore request
    ++ (if request.company = "" then "" else companyBlock request.company)
    ++ renderAfter request now

/-- The email body with no company field block in it, following the words of
the spec (section 4.3 step 1: empty or absent company omits that visual block
entirely). -/
def renderNoCompany (request : ContactFormRequest) (now : DateTime) : String :=
  renderBefore request ++ renderAfter request now

/-- Substring containment, used to state that the body contains a block. -/
def containsStr (hay needle : String) : Prop :=
  ∃ pre post : String, hay = pre ++ needle ++ post

/-! ## Contact Form Service: dispatch and persistence
(src/server.py lines 86 to 213) -/

/-- The provider response dict; `email_response.get("id")` yields its
optional message identifier. -/
structure EmailResponse where
  id : Option String
deriving DecidableEq, Repr

/-- The `params` dict handed to `resend.Emails.send`. The `to` list holds the
raw `RECIPIENT_EMAIL` value, which can be Python `None`. -/
structure EmailParams where
  fromAddr : String
  toAddrs : List (Option String)
  subject : String
  html : String
deriving DecidableEq, Repr

structure HTTPException where
  status_code : Nat
  detail : String
deriving DecidableEq, Repr

/-- The JSON body returned on success (src/server.py lines 202 to 206). -/
structure ContactSuccessBody where
  status : String
  message : String
  email_id : Option String
deriving DecidableEq, Repr

inductive LogEntry
  | info (msg : String)
  | error (msg : String)
deriving DecidableEq, Repr

/-- Everything observable about one run of the POST /api/contact handler:
the HTTP-level outcome, the store afterwards, the log lines emitted in order,
the send request that was built, and whether `insert_one` was reached. -/
structure ContactResult where
  response : Except HTTPException ContactSuccessBody
  db : DB
  log : List LogEntry
  params : EmailParams
  storeInsertAttempted : Bool
deriving Repr

/-- The 500 detail of the `except` handler (src/server.py lines 210 to 213);
the f-string renders an unset recipient as `None`. -/
def dispatchFailureDetail (cfg : Config) : String :=
  "Failed to send message. Please try again later or contact us directly at "
    ++ pyStrOpt cfg.recipient_email

/-- POST /api/contact handler on validated input. `genId` stands for the
`uuid.uuid4()` draw, `nowRender`/`nowSubmit` for the two separate
`datetime.now(timezone.utc)` calls (template footer, stored record), and
`dispatch`/`insertRes` for the outcomes of `resend.Emails.send` and
`insert_one`. The `try` block spans rendering, dispatch and insertion, so an
exception from either adapter lands in the same `except Exception` handler,
which logs the error and raises the 500 `HTTPException`. -/
def send_contact_email (cfg : Config) (request : ContactFormRequest) (genId : String)
    (nowRender nowSubmit : DateTime) (dispatch : Except String EmailResponse)
    (insertRes : Except String Unit) (db : DB) : ContactResult :=
  let html_content := renderHtml request nowRender
  let params : EmailParams :=
    { fromAddr := cfg.sender_email
      toAddrs := [cfg.recipient_email]
      subject := "New Contact Form Submission from " ++ request.name
      html := html_content }
  match dispatch with
  | .error e =>
      { response := .error { status_code := 500, detail := dispatchFailureDetail cfg }
        db := db
        log := [.error ("Failed to send contact form email: " ++ e)]
        params := params
        storeInsertAttempted := false }
  | .ok email_response =>
      let submission : ContactSubmission :=
        { id := genId
          name := request.name
          email := request.email
          company := request.company
          message := request.message
          timestamp := isoformat nowSubmit
          email_id := email_response.id }
      match insertRes with
      | .error e =>
          { response := .error { status_code := 500, detail := dispatchFailureDetail cfg }
            db := db
            log := [.info ("Contact form email sent successfully to " ++ pyStrOpt cfg.recipient_email),
                    .error ("Failed to send contact form email: " ++ e)]
            params := params
            storeInsertAttempted := true }
      | .ok _ =>
          let body : ContactSuccessBody :=
            { status := "success",
              message := "Your message has been sent successfully! We\x27ll get back to you soon.",
              email_id := email_response.id }
          { response := .ok body
            db := { db with contact_submissions := db.contact_submissions ++ [submission] }
            log := [.info ("Contact form email sent successfully to " ++ pyStrOpt cfg.recipient_email)]
            params := params
            storeInsertAttempted := true }

/-! ## Request Validation Layer

Pydantic parses the raw JSON body into the typed models before any handler
runs. Absent fields are `none`; `company` defaults to the empty string. -/

/-- Modelled from the spec: `EmailStr` delegates to the external
email-validator package, which is not part of this repository; the spec
requires the standard grammar local-part `@` domain, so validity here demands
a non-empty local part, a single `@`, and a non-empty domain. Every claim
below uses only the guarantee that a string without `@` is invalid. -/
def emailValid (email : String) : Bool :=
  match email.data.dropWhile (· != '@') with
  | '@' :: domain =>
      !(email.data.takeWhile (· != '@')).isEmpty && !domain.isEmpty && !domain.contains '@'
  | _ => false

/-- The raw JSON body of POST /api/contact before validation. -/
structure RawContactForm where
  name : Option String
  email : Option String
  company : Option String
  message : Option String
deriving DecidableEq, Repr

/-- Pydantic validation of `ContactFormRequest`: all of `name`, `email`,
`message` required, `email` must be a valid address, `company` defaults to
the empty string. -/
def validate_contact_form (raw : RawContactForm) : Except String ContactFormRequest :=
  match raw.name with
  | none => .error "name: Field required"
  | some n =>
      match raw.email with
      | none => .error "email: Field required"
      | some e =>
          if emailValid e then
            match raw.message with
            | none => .error "message: Field required"
            | some m =>
                .ok { name := n, email := e, company := raw.company.getD "", message := m }
          else .error "email: value is not a valid email address"

/-- Pydantic validation of `StatusCheckCreate`: the one field is required and
is an unconstrained string. -/
def validate_status_create (client_name : Option String) : Except String StatusCheckCreate :=
  match client_name with
  | none => .error "client_name: Field required"
  | some s => .ok { client_name := s }

/-- What the HTTP surface observably does with one raw POST /api/contact
request: validation happens before the handler body, so a 422 leaves both
adapters untouched. -/
structure ContactEndpointResult where
  status_code : Nat
  db : DB
  dispatchAttempted : Bool
  storeInsertAttempted : Bool
deriving DecidableEq, Repr

def contact_endpoint (cfg : Config) (raw : RawContactForm) (genId : String)
    (nowRender nowSubmit : DateTime) (dispatch : Except String EmailResponse)
    (insertRes : Except String Unit) (db : DB) : ContactEndpointResult :=
  match validate_contact_form raw with
  | .error _ =>
      { status_code := 422, db := db, dispatchAttempted := false, storeInsertAttempted := false }
  | .ok request =>
      let r := send_contact_email cfg request genId nowRender nowSubmit dispatch insertRes db
      { status_code := match r.response with | .ok _ => 200 | .error ex => ex.status_code
        db := r.db
        dispatchAttempted := true
        storeInsertAttempted := r.storeInsertAttempted }

/-! ## Auxiliary lemmas -/

theorem emailValid_false_of_no_at (e : String) (h : '@' ∉ e.data) : emailValid e = false := by
  have hdrop : e.data.dropWhile (· != '@') = [] := by
    rw [List.dropWhile_eq_nil_iff]
    intro x hx
    rw [bne_iff_ne]
    intro heq
    exact h (heq ▸ hx)
  unfold emailValid
  rw [hdrop]

/-! ## Shared concrete inputs for witnesses and counterexamples -/

def cfg0 : Config :=
  { mongo_url := "mongodb://localhost:27017", db_name := "invera",
    resend_api_key := some "re_key", sender_email := "onboarding@resend.dev",
    recipient_email := some "team@invera.example", cors_origins := ["*"] }

def db0 : DB := { status_checks := [], contact_submissions := [] }

def t0 : DateTime := ⟨2024, 5, 17, 12, 30, 45, 123456⟩

def req0 : ContactFormRequest :=
  { name := "Jo", email := "jo@x.com", company := "", message := "hi" }

def req1 : ContactFormRequest :=
  { name := "Jo", email := "jo@x.com", company := "Acme", message := "hi" }

def raw2 : RawContactForm :=
  { name := some "Jo", email := some "jo.example.com", company := none, message := some "hi" }

def envMissingRecipient : String → Option String := fun k =>
  if k = "MONGO_URL" then some "mongodb://localhost:27017"
  else if k = "DB_NAME" then some "invera" else none

def envEmpty : String → Option String := fun _ => none

/-! ## The claims -/

/-- Claim C1: for every valid ContactFormRequest, if the email dispatch call
fails with any error, then no document is inserted into the contact
submissions collection (the store is untouched and `insert_one` is never
reached), the failure is logged with the underlying error detail, and the
operation fails with a 500 response whose message advises the user to retry
later or contact the configured recipient address directly; persistence
happens only on the dispatch success path. -/
theorem claim_C1_dispatch_failure_not_persisted
    (cfg : Config) (request : ContactFormRequest) (genId : String)
    (nowRender nowSubmit : DateTime) (e : String) (insertRes : Except String Unit) (db : DB) :
    send_contact_email cfg request genId nowRender nowSubmit (.error e) insertRes db =
      { response := .error
          { status_code := 500,
            detail := "Failed to send message. Please try again later or contact us directly at "
              ++ pyStrOpt cfg.recipient_email }
        db := db
        log := [.error ("Failed to send contact form email: " ++ e)]
        params :=
          { fromAddr := cfg.sender_email,
            toAddrs := [cfg.recipient_email],
            subject := "New Contact Form Submission from " ++ request.name,
            html := renderHtml request nowRender }
        storeInsertAttempted := false } := rfl

/-- Claim C2: for every valid ContactFormRequest, if the email dispatch
adapter succeeds with a response carrying message id `m` (possibly absent),
then the handler returns status `success` with `email_id = m`, and exactly
one new document is appended to the contact submissions collection with
`email_id = m`; when the provider response omits the id, the stored and
returned `email_id` are both `none`. -/
theorem claim_C2_dispatch_success_persists_once
    (cfg : Config) (request : ContactFormRequest) (genId : String)
    (nowRender nowSubmit : DateTime) (resp : EmailResponse) (db : DB) :
    (send_contact_email cfg request genId nowRender nowSubmit (.ok resp) (.ok ()) db).response
      = .ok
          { status := "success",
            message := "Your message has been sent successfully! We\x27ll get back to you soon.",
            email_id := resp.id }
    ∧ (send_contact_email cfg request genId nowRender nowSubmit (.ok resp) (.ok ()) db).db.contact_submissions
      = db.contact_submissions ++
          [{ id := genId,
             name := request.name,
             email := request.email,
             company := request.company,
             message := request.message,
             timestamp := isoformat nowSubmit,
             email_id := resp.id }]
    ∧ (send_contact_email cfg request genId nowRender nowSubmit (.ok resp) (.ok ()) db).db.status_checks
      = db.status_checks :=
  ⟨rfl, rfl, rfl⟩

/-- Claim C3 counterexample: when the store insert fails after a successful
dispatch, the failure does not propagate as an unhandled error distinct from
the dispatch-failure path; the surrounding `except Exception` handler catches
it and produces exactly the dispatch-failure 500 response. -/
theorem claim_C3_counterexample :
    (send_contact_email cfg0 req0 "id-1" t0 t0 (.ok ⟨some "msg_123"⟩)
        (.error "store unreachable") db0).response
      = (send_contact_email cfg0 req0 "id-1" t0 t0 (.error "provider down") (.ok ()) db0).response
    ∧ (send_contact_email cfg0 req0 "id-1" t0 t0 (.ok ⟨some "msg_123"⟩)
        (.error "store unreachable") db0).response
      = .error
          { status_code := 500,
            detail := "Failed to send message. Please try again later or contact us directly at team@invera.example" } :=
  ⟨rfl, rfl⟩

/-- Claim C3 as amended: if the store insert fails after a successful email
dispatch, the `try` block that spans both adapter calls routes the failure to
the same `except Exception` handler as a dispatch failure: the error is
logged (after the dispatch-success info line) and the handler raises the same
500 `HTTPException`; no submission document is persisted. -/
theorem claim_C3_amended
    (cfg : Config) (request : ContactFormRequest) (genId : String)
    (nowRender nowSubmit : DateTime) (resp : EmailResponse) (e : String) (db : DB) :
    send_contact_email cfg request genId nowRender nowSubmit (.ok resp) (.error e) db =
      { response := .error { status_code := 500, detail := dispatchFailureDetail cfg }
        db := db
        log := [.info ("Contact form email sent successfully to " ++ pyStrOpt cfg.recipient_email),
                .error ("Failed to send contact form email: " ++ e)]
        params :=
          { fromAddr := cfg.sender_email,
            toAddrs := [cfg.recipient_email],
            subject := "New Contact Form Submission from " ++ request.name,
            html := renderHtml request nowRender }
        storeInsertAttempted := true } := rfl

/-- Claim C4 counterexample: an environment that provides the store
connection string and database name but no recipient address does not make
the process fail to start; configuration loading succeeds with the recipient
unset, refuting the claim that the recipient address is required at startup. -/
theorem claim_C4_counterexample :
    loadConfig envMissingRecipient =
      .ok { mongo_url := "mongodb://localhost:27017", db_name := "invera",
            resend_api_key := none, sender_email := "onboarding@resend.dev",
            recipient_email := none, cors_origins := ["*"] } := rfl

/-- Claim C4 as amended: at startup only `MONGO_URL` and `DB_NAME` are
required, and absence of either prevents the process from starting; the
sender address has the default `onboarding@resend.dev`; the recipient address
and the provider API key are read without validation, so their absence does
not prevent startup and leaves them unset. -/
theorem claim_C4_amended (env : String → Option String) :
    (env "MONGO_URL" = none → loadConfig env = .error "KeyError: MONGO_URL")
    ∧ (∀ mu, env "MONGO_URL" = some mu → env "DB_NAME" = none →
        loadConfig env = .error "KeyError: DB_NAME")
    ∧ (∀ mu dn, env "MONGO_URL" = some mu → env "DB_NAME" = some dn →
        loadConfig env = .ok
          { mongo_url := mu, db_name := dn,
            resend_api_key := env "RESEND_API_KEY",
            sender_email := (env "SENDER_EMAIL").getD "onboarding@resend.dev",
            recipient_email := env "RECIPIENT_EMAIL",
            cors_origins := splitComma ((env "CORS_ORIGINS").getD "*") }) := by
  refine ⟨?_, ?_, ?_⟩
  · intro h
    simp [loadConfig, h]
  · intro mu hmu hdb
    simp [loadConfig, hmu, hdb]
  · intro mu dn hmu hdb
    simp [loadConfig, hmu, hdb]

theorem claim_C4_witness :
    loadConfig envEmpty = Except.error "KeyError: MONGO_URL"
    ∧ loadConfig envMissingRecipient =
        .ok { mongo_url := "mongodb://localhost:27017", db_name := "invera",
              resend_api_key := none, sender_email := "onboarding@resend.dev",
              recipient_email := none, cors_origins := ["*"] } :=
  ⟨(claim_C4_amended envEmpty).1 rfl,
   (claim_C4_amended envMissingRecipient).2.2 "mongodb://localhost:27017" "invera" rfl rfl⟩

/-- Claim C5: a StatusCheck written via create and then retrieved via list is
returned with client name and timestamp identical to the values returned at
creation (serialization to the ISO string and back loses nothing), provided
the store read succeeds on the pre-existing records and the collection has
room below the 1000-record read cap so the new record is among those listed. -/
theorem claim_C5_roundtrip (input : StatusCheckCreate) (genId : String) (now : DateTime)
    (db : DB) (prev : List StatusCheck)
    (hnow : now.valid) (hlen : db.status_checks.length < 1000)
    (hprev : get_status_checks db = some prev) :
    (create_status_check input genId now db).1.client_name = input.client_name
    ∧ (create_status_check input genId now db).1.timestamp = now
    ∧ get_status_checks (create_status_check input genId now db).2
        = some (prev ++ [(create_status_check input genId now db).1]) := by
  refine ⟨rfl, rfl, ?_⟩
  have hparse : parseChecks db.status_checks = some prev := by
    have htake : db.status_checks.take 1000 = db.status_checks :=
      List.take_of_length_le (by omega)
    rw [get_status_checks, htake] at hprev
    exact hprev
  have hdoc : parseChecks [(⟨genId, input.client_name, isoformat now⟩ : StatusCheckDoc)]
      = some [(⟨genId, input.client_name, now⟩ : StatusCheck)] := by
    simp [parseChecks, fromisoformat_isoformat now hnow]
  have htake2 : (db.status_checks ++ [(⟨genId, input.client_name, isoformat now⟩ : StatusCheckDoc)]).take 1000
      = db.status_checks ++ [(⟨genId, input.client_name, isoformat now⟩ : StatusCheckDoc)] :=
    List.take_of_length_le (by simp; omega)
  have hres : get_status_checks (create_status_check input genId now db).2
      = parseChecks ((db.status_checks ++ [(⟨genId, input.client_name, isoformat now⟩ : StatusCheckDoc)]).take 1000) := rfl
  rw [hres, htake2]
  exact parseChecks_append db.status_checks prev _ _ hparse hdoc

theorem claim_C5_witness :
    (create_status_check ⟨"acme-bot"⟩ "id-1" t0 db0).1.client_name = "acme-bot"
    ∧ (create_status_check ⟨"acme-bot"⟩ "id-1" t0 db0).1.timestamp = t0
    ∧ get_status_checks (create_status_check ⟨"acme-bot"⟩ "id-1" t0 db0).2
        = some [(create_status_check ⟨"acme-bot"⟩ "id-1" t0 db0).1] := by
  have h := claim_C5_roundtrip ⟨"acme-bot"⟩ "id-1" t0 db0 [] (by decide) (by decide) rfl
  simpa using h

/-- Claim C6: for every state of the status checks collection, a successful
list read returns at most 1000 records, even when the store holds more. -/
theorem claim_C6_list_capped (db : DB) (r : List StatusCheck)
    (h : get_status_checks db = some r) : r.length ≤ 1000 := by
  have hlen := parseChecks_length _ _ h
  rw [hlen, List.length_take]
  exact Nat.min_le_left _ _

theorem claim_C6_witness : ∃ r, get_status_checks db0 = some r ∧ r.length ≤ 1000 :=
  ⟨[], rfl, claim_C6_list_capped db0 [] rfl⟩

/-- Claim C7: the rendered email body contains the company field block
exactly when the request company is non-empty: a non-empty company yields a
body containing the company block, which itself contains the company value,
while an empty (or defaulted-absent) company makes the renderer emit the body
with the block omitted entirely. -/
theorem claim_C7_company_block (request : ContactFormRequest) (now : DateTime) :
    (request.company ≠ "" →
      containsStr (renderHtml request now) (companyBlock request.company)
      ∧ containsStr (companyBlock request.company) request.company)
    ∧ (request.company = "" → renderHtml request now = renderNoCompany request now) := by
  constructor
  · intro h
    refine ⟨⟨renderBefore request, renderAfter request now, ?_⟩,
      ⟨companyBlockPre, companyBlockPost, rfl⟩⟩
    rw [renderHtml, if_neg h]
  · intro h
    rw [renderHtml, if_pos h, String.append_empty, renderNoCompany]

theorem claim_C7_witness :
    (containsStr (renderHtml req1 t0) (companyBlock "Acme")
      ∧ containsStr (companyBlock "Acme") "Acme")
    ∧ renderHtml req0 t0 = renderNoCompany req0 t0 :=
  ⟨(claim_C7_company_block req1 t0).1 (by decide),
   (claim_C7_company_block req0 t0).2 rfl⟩

/-- Claim C8: a contact-form payload whose email value lacks an `@` character
fails validation with a 422 before either adapter is invoked: the store is
untouched and neither the dispatch call nor the insert is attempted. -/
theorem claim_C8_invalid_email_rejected (cfg : Config) (raw : RawContactForm)
    (genId : String) (nowRender nowSubmit : DateTime)
    (dispatch : Except String EmailResponse) (insertRes : Except String Unit) (db : DB)
    (e : String) (he : raw.email = some e) (h : '@' ∉ e.data) :
    contact_endpoint cfg raw genId nowRender nowSubmit dispatch insertRes db =
      { status_code := 422, db := db,
        dispatchAttempted := false, storeInsertAttempted := false } := by
  have hv : emailValid e = false := emailValid_false_of_no_at e h
  cases hn : raw.name with
  | none => simp [contact_endpoint, validate_contact_form, hn]
  | some n => simp [contact_endpoint, validate_contact_form, hn, he, hv]

theorem claim_C8_witness :
    contact_endpoint cfg0 raw2 "id-1" t0 t0 (.ok ⟨some "e1"⟩) (.ok ()) db0 =
      { status_code := 422, db := db0,
        dispatchAttempted := false, storeInsertAttempted := false } :=
  claim_C8_invalid_email_rejected cfg0 raw2 "id-1" t0 t0 (.ok ⟨some "e1"⟩) (.ok ()) db0
    "jo.example.com" rfl (by decide)

/-- Claim C9: every record persisted by create or by a successful submit has
the server-generated id and the server-generated UTC timestamp (the values
drawn by the handler, serialized to the ISO string for storage), for every
input; the input types StatusCheckCreate and ContactFormRequest have no id or
timestamp fields at all, so no client-supplied value can reach those record
fields. -/
theorem claim_C9_server_generated_fields (input : StatusCheckCreate) (genId : String)
    (now : DateTime) (db : DB) (cfg : Config) (request : ContactFormRequest)
    (genId2 : String) (nowRender nowSubmit : DateTime) (resp : EmailResponse) (db2 : DB) :
    (create_status_check input genId now db).2.status_checks
      = db.status_checks ++
          [{ id := genId, client_name := input.client_name, timestamp := isoformat now }]
    ∧ (create_status_check input genId now db).1.id = genId
    ∧ (create_status_check input genId now db).1.timestamp = now
    ∧ (send_contact_email cfg request genId2 nowRender nowSubmit (.ok resp) (.ok ()) db2).db.contact_submissions
      = db2.contact_submissions ++
          [{ id := genId2, name := request.name, email := request.email,
             company := request.company, message := request.message,
             timestamp := isoformat nowSubmit, email_id := resp.id }] :=
  ⟨rfl, rfl, rfl, rfl⟩

/-- Claim C10: POST /status accepts an empty client name: validation of the
one required field succeeds on the empty string, and the created StatusCheck
carries the empty client name unchanged. -/
theorem claim_C10_empty_client_name_accepted (genId : String) (now : DateTime) (db : DB) :
    validate_status_create (some "") = .ok { client_name := "" }
    ∧ (create_status_check { client_name := "" } genId now db).1.client_name = "" :=
  ⟨rfl, rfl⟩

end Invera
